import Mathlib

/-!
Verification of the ingestion-and-windowing pipeline of
`src/voxblox_ros/src/tsdf_server.cc` (the `TsdfServer` class).

Shallow embedding conventions:
* `ros::Time` / `ros::Duration` values are modelled as rationals (seconds);
  `ros::Time()` default-constructs to the zero sentinel, modelled as `0`.
* 3-D points (`voxblox::Point`) are triples of rationals.  The constructor
  initializes `last_published_submap_position_` to `Point::Constant(NAN)`
  and `shouldCreateNewSubmap` tests `.array().isNaN().any()`; the NaN
  sentinel is modelled as `Option.none` (NaN is not a rational).
* The optional-threshold parameter type (declared in `tsdf_server.h`, which
  is not among the provided sources) is modelled from the spec:
  "three independently-optional numeric limits ..., each either unset
  (never triggers) or a positive bound, compared with strict-less-than
  semantics" and "an isSetAndLessThan(x) predicate that is false whenever
  unset".
* The Euclidean norm comparison `t.isSetAndLT(v.norm())` is encoded on
  squared norms (`t * t < ‖v‖²`), which is equivalent for the non-negative
  thresholds the parameter loader admits (`0 < ros_param` is enforced at
  lines 243-254) since both sides of the comparison are non-negative.
* Point/color buffers are opaque to every claimed property; a packet keeps
  the buffer sizes and the freespace flag only.
-/

namespace Voxblox

/-- Timestamps and durations in seconds (`ros::Time` / `ros::Duration`). -/
abbrev Time := ℚ

/-- A 3-D position (`voxblox::Point`), exact coordinates. -/
abbrev Point3 := ℚ × ℚ × ℚ

/-- Componentwise difference of two points. -/
def sub3 (p q : Point3) : Point3 := (p.1 - q.1, p.2.1 - q.2.1, p.2.2 - q.2.2)

/-- Squared Euclidean norm of a point. -/
def normSq (p : Point3) : ℚ := p.1 * p.1 + p.2.1 * p.2.1 + p.2.2 * p.2.2

/-- Modelled from the spec: the optional numeric bound declared in
`tsdf_server.h` (not among the provided sources) holding either "unset"
(never triggers) or a value; spec section 3 "ThresholdSet" and section 9
"Optional numeric bound with an unset sentinel". -/
structure SettableParam (α : Type) where
  value : Option α
deriving DecidableEq

/-- Whether the parameter is set. -/
def SettableParam.isSet {α : Type} (t : SettableParam α) : Bool :=
  t.value.isSome

/-- `unset()`: clears the parameter (used at lines 134-136). -/
def SettableParam.unset {α : Type} (_ : SettableParam α) : SettableParam α :=
  ⟨none⟩

/-- Modelled from the spec: `isSetAndLT(x)` is false when unset, and
otherwise compares the stored bound with strict-less-than semantics
(spec section 3: "compared with strict-less-than semantics"; section 9:
"an isSetAndLessThan(x) predicate that is false whenever unset"). -/
def SettableParam.isSetAndLT {α : Type} [LT α]
    [DecidableRel (α := α) (· < ·)] (t : SettableParam α) (x : α) : Bool :=
  match t.value with
  | none => false
  | some v => decide (v < x)

/-- `t.isSetAndLT(v.norm())` encoded on squared norms: for a set bound `d`
(validated positive by the parameter loader) `d < ‖v‖` iff `d * d < ‖v‖²`. -/
def SettableParam.isSetAndLTnorm (t : SettableParam ℚ) (v : Point3) : Bool :=
  match t.value with
  | none => false
  | some d => decide (d * d < normSq v)

/-- A `PointcloudDeintegrationPacket` (retained window entry): the message
timestamp, the position of its resolved pose `T_G_C`, the shared point/color
buffer sizes (the buffers themselves are opaque to every claimed property)
and the freespace flag. -/
structure PointcloudDeintegrationPacket where
  timestamp : Time
  position : Point3
  num_points : ℕ
  is_freespace_pointcloud : Bool
deriving DecidableEq

/-- The three pointcloud-deintegration thresholds read at lines 242-254:
`pointcloud_deintegration_max_queue_length`, `..._max_time_interval` and
`..._max_distance_travelled`. -/
structure PointcloudDeintegrationConfig where
  max_queue_length : SettableParam ℕ
  max_time_interval : SettableParam ℚ
  max_distance_travelled : SettableParam ℚ
deriving DecidableEq

/-- Modelled from the spec: `pointcloudDeintegrationEnabled()` is declared in
`tsdf_server.h` (not among the provided sources).  Deintegration is the
chosen windowing mechanism exactly when at least one of the three
thresholds is set (spec section 8 property 1: unset bounds never trigger;
constructor message at lines 127-133: "do not set" all three parameters
to disable the feature). -/
def pointcloudDeintegrationEnabled (c : PointcloudDeintegrationConfig) : Bool :=
  c.max_queue_length.isSet || c.max_time_interval.isSet ||
    c.max_distance_travelled.isSet

/-- The eviction predicate evaluated at lines 550-568 of
`servicePointcloudDeintegrationQueue` against the front (oldest) and back
(newest) packets of the window: queue-length, elapsed-time and
distance-travelled thresholds, each compared via `isSetAndLT` and combined
with a logical OR. -/
def deintegrationPredicate (cfg : PointcloudDeintegrationConfig)
    (queue : List PointcloudDeintegrationPacket) : Bool :=
  match queue.head?, queue.getLast? with
  | some front, some back =>
      cfg.max_queue_length.isSetAndLT queue.length ||
      cfg.max_time_interval.isSetAndLT (back.timestamp - front.timestamp) ||
      cfg.max_distance_travelled.isSetAndLTnorm
        (sub3 back.position front.position)
  | _, _ => false

/-- The outcome of `servicePointcloudDeintegrationQueue` (lines 543-585):
the remaining window, the `map_needs_pruning_` flag, and the packets that
were handed to `integratePointCloud(..., deintegrate = true)` in order of
deintegration (the map is mutated only through those calls). -/
structure ServiceResult where
  queue : List PointcloudDeintegrationPacket
  map_needs_pruning : Bool
  deintegrated : List PointcloudDeintegrationPacket
deriving DecidableEq

/-- `TsdfServer::servicePointcloudDeintegrationQueue` (lines 543-585):
while more than one packet is retained, evaluate the eviction predicate
against front and back; if it holds, deintegrate the front packet, pop it
and set `map_needs_pruning_`; otherwise stop. -/
def servicePointcloudDeintegrationQueue (cfg : PointcloudDeintegrationConfig) :
    List PointcloudDeintegrationPacket → Bool → ServiceResult
  | [], np => ⟨[], np, []⟩
  | [p], np => ⟨[p], np, []⟩
  | p :: q :: rest, np =>
      if deintegrationPredicate cfg (p :: q :: rest) = true then
        let r := servicePointcloudDeintegrationQueue cfg (q :: rest) true
        ⟨r.queue, r.map_needs_pruning, p :: r.deintegrated⟩
      else
        ⟨p :: q :: rest, np, []⟩

/-- A TSDF voxel: signed distance and observation weight. -/
structure TsdfVoxel where
  distance : ℚ
  weight : ℚ
deriving DecidableEq

/-- A block index of the TSDF layer. -/
abbrev BlockIndex := ℤ × ℤ × ℤ

/-- A TSDF block: its index, its voxels, and its `Update::kMap` updated
flag (`getAllUpdatedBlocks(Update::kMap, ...)` returns the blocks whose
flag is set). -/
structure Block where
  index : BlockIndex
  voxels : List TsdfVoxel
  updated : Bool
deriving DecidableEq

/-- A mesh-layer cell: its block index, its vertices, and its `updated`
flag (set to mark the cell for re-extraction). -/
structure MeshBlock where
  index : BlockIndex
  vertices : List Point3
  updated : Bool
deriving DecidableEq

/-- `voxblox::kFloatEpsilon` (defined in voxblox core, outside the provided
sources): the near-zero weight bound, 1e-6. -/
def kFloatEpsilon : ℚ := 1 / 1000000

/-- The inner scan of `pruneMap` (lines 596-605): a block contains observed
voxels when some voxel's weight exceeds `kFloatEpsilon`. -/
def blockContainsObservedVoxels (b : Block) : Bool :=
  b.voxels.any (fun v => decide (kFloatEpsilon < v.weight))

/-- The server state touched by the claimed operations: the TSDF layer, the
mesh layer, the deintegration window `pointcloud_deintegration_queue_`, the
submap bookkeeping (`submap_counter_`, `last_published_submap_timestamp_`,
`last_published_submap_position_`) and the `map_needs_pruning_` flag.
`none` for the position models the NaN sentinel. -/
structure ServerState where
  tsdf_layer : List Block
  mesh_layer : List MeshBlock
  pointcloud_deintegration_queue : List PointcloudDeintegrationPacket
  submap_counter : ℕ
  last_published_submap_timestamp : Time
  last_published_submap_position : Option Point3
  map_needs_pruning : Bool
deriving DecidableEq

/-- The constructor's member initialization (lines 49-55):
`submap_counter_(0)`, `last_published_submap_timestamp_(0)`,
`last_published_submap_position_(Point::Constant(NAN))`,
`map_needs_pruning_(false)`, and empty map, mesh and window. -/
def initialServerState : ServerState :=
  ⟨[], [], [], 0, 0, none, false⟩

/-- `TsdfServer::pruneMap` (lines 587-622): every updated block none of
whose voxels has weight above `kFloatEpsilon` is removed; a removed block's
mesh cell, when present, is cleared and marked updated; finally
`map_needs_pruning_` is reset to false. -/
def pruneMap (s : ServerState) : ServerState :=
  let pruned_block_indices :=
    (s.tsdf_layer.filter
        (fun b => b.updated && !blockContainsObservedVoxels b)).map
      (fun b => b.index)
  { s with
    tsdf_layer :=
      s.tsdf_layer.filter (fun b => decide (b.index ∉ pruned_block_indices)),
    mesh_layer :=
      s.mesh_layer.map (fun m =>
        if m.index ∈ pruned_block_indices then
          { m with vertices := [], updated := true }
        else m),
    map_needs_pruning := false }

/-- `TsdfServer::publishMap` (lines 681-709) restricted to the modelled
state: when `map_needs_pruning_` is set it first runs `pruneMap()`
(lines 682-684, which resets the flag at line 619); the rest of the body
only serializes and publishes the layer (and updates the unmodelled
subscriber count), mutating no modelled field. -/
def publishMap (s : ServerState) : ServerState :=
  if s.map_needs_pruning = true then pruneMap s else s

/-- `TsdfServer::clear` (lines 973-983): remove all TSDF blocks, clear the
mesh layer and empty the deintegration window; then, when the
`publish_tsdf_map_` setting is on, broadcast the reset via
`publishMap(kResetRemoteMap)` (lines 979-982), which first runs
`pruneMap()` — and thereby resets `map_needs_pruning_` — if the flag is
dirty. -/
def clear (publish_tsdf_map : Bool) (s : ServerState) : ServerState :=
  let s1 :=
    { s with
      tsdf_layer := [],
      mesh_layer := [],
      pointcloud_deintegration_queue := [] }
  if publish_tsdf_map = true then publishMap s1 else s1

/-- `TsdfServer::clearMapCallback` (lines 925-930): run `clear()` and
report success. -/
def clearMapCallback (publish_tsdf_map : Bool) (s : ServerState) :
    ServerState × Bool :=
  (clear publish_tsdf_map s, true)

/-- The ingest-gate state of `insertPointcloud`: `last_msg_time_ptcloud_`
and `pointcloud_queue_` (messages modelled by their header timestamps). -/
structure IngestState where
  last_msg_time_ptcloud : Time
  pointcloud_queue : List Time
deriving DecidableEq

/-- The rate gate of `TsdfServer::insertPointcloud` (lines 466-473): the
message is pushed onto `pointcloud_queue_` and `last_msg_time_ptcloud_` is
advanced exactly when `stamp - last_msg_time_ptcloud_ >
min_time_between_msgs_`; otherwise the state is unchanged and the message
is dropped.  (The drain loop at lines 475-498 performs pose lookup on
already-queued messages and never re-admits a dropped one.) -/
def insertPointcloud (min_time_between_msgs : ℚ) (s : IngestState)
    (stamp : Time) : IngestState :=
  if stamp - s.last_msg_time_ptcloud > min_time_between_msgs then
    ⟨stamp, s.pointcloud_queue ++ [stamp]⟩
  else
    s

/-- The submap thresholds read at lines 209-216:
`submap_max_time_interval` and `submap_max_distance_travelled`. -/
structure SubmapConfig where
  submap_max_time_interval : SettableParam ℚ
  submap_max_distance_travelled : SettableParam ℚ
deriving DecidableEq

/-- Modelled from the spec: `submappingEnabled()` is declared in
`tsdf_server.h` (not among the provided sources).  Submapping is enabled
exactly when at least one of the two submap bounds is set (spec section
4.6: "false if both time and distance submap bounds are unset (submapping
disabled)"). -/
def submappingEnabled (c : SubmapConfig) : Bool :=
  c.submap_max_time_interval.isSet || c.submap_max_distance_travelled.isSet

/-- `TsdfServer::shouldCreateNewSubmap` (lines 1001-1028): return false when
submapping is disabled; on the first observed pose (zero-timestamp or
NaN-position sentinel) initialize the reference fields and return false;
otherwise report whether the elapsed-time or distance threshold is
exceeded.  (The `getD` default is never read: the third branch is only
reached when the stored position is not the sentinel.) -/
def shouldCreateNewSubmap (cfg : SubmapConfig) (s : ServerState)
    (current_timestamp : Time) (current_position : Point3) :
    Bool × ServerState :=
  if submappingEnabled cfg = false then
    (false, s)
  else if s.last_published_submap_timestamp = 0 ∨
      s.last_published_submap_position = none then
    (false,
      { s with
        last_published_submap_timestamp := current_timestamp,
        last_published_submap_position := some current_position })
  else
    let time_threshold_exceeded :=
      cfg.submap_max_time_interval.isSetAndLT
        (current_timestamp - s.last_published_submap_timestamp)
    let distance_threshold_exceeded :=
      cfg.submap_max_distance_travelled.isSetAndLTnorm
        (sub3 current_position
          (s.last_published_submap_position.getD (0, 0, 0)))
    (time_threshold_exceeded || distance_threshold_exceeded, s)

/-- `TsdfServer::createNewSubmap` (lines 1030-1041): reset map, mesh and
window via `clear()` unless pointcloud deintegration is enabled; then
increment `submap_counter_` and set the submap reference timestamp and
position to the finalizing observation.  `publish_tsdf_map` is the server
setting `clear()` reads internally. -/
def createNewSubmap (publish_tsdf_map : Bool)
    (dcfg : PointcloudDeintegrationConfig) (s : ServerState)
    (current_timestamp : Time) (current_position : Point3) : ServerState :=
  let s1 :=
    if pointcloudDeintegrationEnabled dcfg = true then s
    else clear publish_tsdf_map s
  { s1 with
    submap_counter := s1.submap_counter + 1,
    last_published_submap_timestamp := current_timestamp,
    last_published_submap_position := some current_position }

/-- The TSDF integrator types known to `TsdfIntegratorFactory`
(method strings "simple", "merged", "fast", "projective"). -/
inductive TsdfIntegratorType
  | kSimple
  | kMerged
  | kFast
  | kProjective
deriving DecidableEq

/-- The constructor check at lines 124-137: when deintegration is enabled
but the chosen integrator is not the projective one, unset all three
thresholds and log an error (returned as the Boolean); construction then
continues either way. -/
def disableDeintegrationIfUnsupported (cfg : PointcloudDeintegrationConfig)
    (integrator_type : TsdfIntegratorType) :
    PointcloudDeintegrationConfig × Bool :=
  if pointcloudDeintegrationEnabled cfg = true ∧
      integrator_type ≠ TsdfIntegratorType.kProjective then
    (⟨cfg.max_queue_length.unset, cfg.max_time_interval.unset,
      cfg.max_distance_travelled.unset⟩, true)
  else
    (cfg, false)

/-- The ICP bookkeeping state: `icp_corrected_transform_`.  `T` is the
rigid-transform type (`Transformation`), of which only the group structure
(composition, inverse, identity) is used here. -/
structure IcpState (T : Type) where
  icp_corrected_transform : T

/-- The ICP block of `processPointCloudMessageAndInsert` (lines 327-350),
entered when `enable_icp_` is set.  `runICP` is the external refiner
(`icp_->runICP`, already closed over the layer and the point cloud): it
maps the effective prior `icp_corrected_transform_ * T_G_C` to the refined
pose.  `zeroRollPitchCorrection` models the log-space roll/pitch zeroing at
lines 346-349 (`kindr` log/exp live outside the provided sources), applied
exactly when the refiner does not solve roll and pitch.  Returns the new
bookkeeping state and the refined pose. -/
def processPointCloudIcp {T : Type} [Group T]
    (accumulate_icp_corrections refiningRollPitch : Bool)
    (zeroRollPitchCorrection : T → T) (runICP : T → T)
    (s : IcpState T) (T_G_C : T) : IcpState T × T :=
  let s0 : IcpState T :=
    if accumulate_icp_corrections then s else ⟨1⟩
  let T_G_C_refined := runICP (s0.icp_corrected_transform * T_G_C)
  let corrected := T_G_C_refined * T_G_C⁻¹
  let corrected :=
    if refiningRollPitch then corrected else zeroRollPitchCorrection corrected
  (⟨corrected⟩, T_G_C_refined)

/-!  Helper lemmas shared by the claim theorems. -/

/-- The while loop of `servicePointcloudDeintegrationQueue` pops the window
from the front: the result is the first suffix of the input at which the
loop guard fails, the popped prefix is the deintegrated list, and
`map_needs_pruning_` is set exactly when at least one packet was popped. -/
lemma serviceQueue_take_drop (cfg : PointcloudDeintegrationConfig) :
    ∀ (q : List PointcloudDeintegrationPacket) (np : Bool),
      ∃ k, k ≤ q.length ∧
        servicePointcloudDeintegrationQueue cfg q np =
          ⟨q.drop k, np || decide (0 < k), q.take k⟩ ∧
        ¬(1 < (q.drop k).length ∧
            deintegrationPredicate cfg (q.drop k) = true) ∧
        ∀ j < k, 1 < (q.drop j).length ∧
            deintegrationPredicate cfg (q.drop j) = true := by
  intro q
  induction q with
  | nil =>
      intro np
      refine ⟨0, Nat.le_refl _, ?_, ?_, ?_⟩
      · simp [servicePointcloudDeintegrationQueue]
      · simp
      · intro j hj
        exact absurd hj (Nat.not_lt_zero j)
  | cons p rest ih =>
      intro np
      cases rest with
      | nil =>
          refine ⟨0, Nat.zero_le _, ?_, ?_, ?_⟩
          · simp [servicePointcloudDeintegrationQueue]
          · simp
          · intro j hj
            exact absurd hj (Nat.not_lt_zero j)
      | cons q' rest' =>
          by_cases hpred :
              deintegrationPredicate cfg (p :: q' :: rest') = true
          · obtain ⟨k, hk, heq, hstop, hall⟩ := ih true
            refine ⟨k + 1, Nat.succ_le_succ hk, ?_, ?_, ?_⟩
            · show servicePointcloudDeintegrationQueue cfg
                (p :: q' :: rest') np = _
              rw [servicePointcloudDeintegrationQueue, if_pos hpred, heq]
              simp
            · simpa using hstop
            · intro j hj
              cases j with
              | zero =>
                  refine ⟨by simp, hpred⟩
              | succ j' =>
                  simpa using hall j' (Nat.lt_of_succ_lt_succ hj)
          · refine ⟨0, Nat.zero_le _, ?_, ?_, ?_⟩
            · rw [servicePointcloudDeintegrationQueue, if_neg hpred]
              simp
            · exact fun h => hpred h.2
            · intro j hj
              exact absurd hj (Nat.not_lt_zero j)

/-- The service loop never empties a non-empty window. -/
lemma serviceQueue_ne_nil (cfg : PointcloudDeintegrationConfig) :
    ∀ (q : List PointcloudDeintegrationPacket) (np : Bool), q ≠ [] →
      (servicePointcloudDeintegrationQueue cfg q np).queue ≠ [] := by
  intro q
  induction q with
  | nil => intro np h; exact absurd rfl h
  | cons p rest ih =>
      intro np _
      cases rest with
      | nil => simp [servicePointcloudDeintegrationQueue]
      | cons q' rest' =>
          by_cases hpred :
              deintegrationPredicate cfg (p :: q' :: rest') = true
          · rw [servicePointcloudDeintegrationQueue, if_pos hpred]
            exact ih true (by simp)
          · rw [servicePointcloudDeintegrationQueue, if_neg hpred]
            simp

/-- `clear` wipes the layers and the window, preserves the submap
bookkeeping, and resets the dirty flag exactly when `publish_tsdf_map` is
on and the flag was dirty (the trailing `publishMap` then runs
`pruneMap`); otherwise the flag is untouched. -/
lemma clear_eq (publish_tsdf_map : Bool) (s : ServerState) :
    clear publish_tsdf_map s =
      ⟨[], [], [], s.submap_counter, s.last_published_submap_timestamp,
        s.last_published_submap_position,
        !publish_tsdf_map && s.map_needs_pruning⟩ := by
  cases publish_tsdf_map with
  | false => rfl
  | true =>
      by_cases h : s.map_needs_pruning = true
      · simp [clear, publishMap, pruneMap, h]
      · have h' : s.map_needs_pruning = false := by
          revert h
          cases s.map_needs_pruning <;> simp
        simp [clear, publishMap, h']

/-- With all three bounds unset the eviction predicate is false on every
window. -/
lemma deintegrationPredicate_all_unset
    (q : List PointcloudDeintegrationPacket) :
    deintegrationPredicate ⟨⟨none⟩, ⟨none⟩, ⟨none⟩⟩ q = false := by
  unfold deintegrationPredicate
  cases q.head? <;> cases q.getLast? <;>
    simp [SettableParam.isSetAndLT, SettableParam.isSetAndLTnorm]

/-- C1 counterexample: with `max_queue_length = 2` set (the other bounds
unset) and a window of exactly 2 packets, the claim's predicate
"window size ≥ max_queue_length" holds (2 ≥ 2), yet the code deintegrates
nothing, pops nothing and leaves the dirty flag clear: `isSetAndLT`
compares strictly, so eviction needs size > max_queue_length. -/
theorem service_queue_length_boundary_counterexample :
    ([⟨0, (0, 0, 0), 1, false⟩,
      (⟨1, (1, 0, 0), 1, false⟩ : PointcloudDeintegrationPacket)].length ≥ 2) ∧
    servicePointcloudDeintegrationQueue ⟨⟨some 2⟩, ⟨none⟩, ⟨none⟩⟩
        [⟨0, (0, 0, 0), 1, false⟩, ⟨1, (1, 0, 0), 1, false⟩] false =
      ⟨[⟨0, (0, 0, 0), 1, false⟩, ⟨1, (1, 0, 0), 1, false⟩], false, []⟩ :=
  ⟨by simp, rfl⟩

/-- C1 (amended: the three eviction predicates are strict, `>` not `≥`):
`servicePointcloudDeintegrationQueue` deintegrates and pops from the front,
setting the dirty flag, exactly while more than one packet remains and one
of the predicates holds, i.e. the result is the first suffix of the window
at which the guard fails, the popped prefix is deintegrated in order, and
the dirty flag is set iff at least one packet was popped; the predicate
holds iff a set bound is strictly exceeded: `max_queue_length < size`,
`max_time_interval < back.timestamp - front.timestamp`, or
`max_distance_travelled < ‖back.position - front.position‖` (squared-norm
encoding), each false when unset. -/
theorem servicePointcloudDeintegrationQueue_strict_eviction :
    (∀ (cfg : PointcloudDeintegrationConfig)
        (q : List PointcloudDeintegrationPacket) (np : Bool),
      ∃ k, k ≤ q.length ∧
        servicePointcloudDeintegrationQueue cfg q np =
          ⟨q.drop k, np || decide (0 < k), q.take k⟩ ∧
        ¬(1 < (q.drop k).length ∧
            deintegrationPredicate cfg (q.drop k) = true) ∧
        ∀ j < k, 1 < (q.drop j).length ∧
            deintegrationPredicate cfg (q.drop j) = true) ∧
    (∀ (cfg : PointcloudDeintegrationConfig)
        (q : List PointcloudDeintegrationPacket)
        (front back : PointcloudDeintegrationPacket),
      q.head? = some front → q.getLast? = some back →
      (deintegrationPredicate cfg q = true ↔
        (∃ n, cfg.max_queue_length.value = some n ∧ n < q.length) ∨
        (∃ t, cfg.max_time_interval.value = some t ∧
          t < back.timestamp - front.timestamp) ∨
        (∃ d, cfg.max_distance_travelled.value = some d ∧
          d * d < normSq (sub3 back.position front.position)))) := by
  constructor
  · exact serviceQueue_take_drop
  · intro cfg q front back hf hb
    obtain ⟨⟨vq⟩, ⟨vt⟩, ⟨vd⟩⟩ := cfg
    unfold deintegrationPredicate
    rw [hf, hb]
    cases vq <;> cases vt <;> cases vd <;>
      simp [SettableParam.isSetAndLT, SettableParam.isSetAndLTnorm, or_assoc]

/-- C2: the service loop never reduces the window below one packet; a
non-empty window stays non-empty for every configuration, and window size
zero arises only from the wholesale `clear()`. -/
theorem serviceQueue_size_floor :
    (∀ (cfg : PointcloudDeintegrationConfig)
        (q : List PointcloudDeintegrationPacket) (np : Bool),
      (servicePointcloudDeintegrationQueue cfg q np).queue = [] ↔ q = []) ∧
    ∀ (publish_tsdf_map : Bool) (s : ServerState),
      (clear publish_tsdf_map s).pointcloud_deintegration_queue = [] := by
  constructor
  · intro cfg q np
    constructor
    · intro h
      by_contra hq
      exact serviceQueue_ne_nil cfg q np hq h
    · intro h
      subst h
      rfl
  · intro publish_tsdf_map s
    rw [clear_eq]

/-- C3: when all three deintegration thresholds are unset, every eviction
predicate is vacuously false and the service loop is a no-op: the window
and the dirty flag are returned unchanged and no deintegration call is
issued (the map is mutated only through the deintegrated list, which is
empty). -/
theorem service_noop_all_unset (cfg : PointcloudDeintegrationConfig)
    (h1 : cfg.max_queue_length.value = none)
    (h2 : cfg.max_time_interval.value = none)
    (h3 : cfg.max_distance_travelled.value = none)
    (q : List PointcloudDeintegrationPacket) (np : Bool) :
    servicePointcloudDeintegrationQueue cfg q np = ⟨q, np, []⟩ := by
  obtain ⟨⟨vq⟩, ⟨vt⟩, ⟨vd⟩⟩ := cfg
  obtain rfl : vq = none := h1
  obtain rfl : vt = none := h2
  obtain rfl : vd = none := h3
  induction q with
  | nil => rfl
  | cons p rest ih =>
      cases rest with
      | nil => rfl
      | cons q' rest' =>
          rw [servicePointcloudDeintegrationQueue,
            if_neg (by simp [deintegrationPredicate_all_unset])]

/-- C3 witness: a concrete two-packet window with every bound unset is
returned untouched. -/
theorem service_noop_all_unset_witness :
    servicePointcloudDeintegrationQueue ⟨⟨none⟩, ⟨none⟩, ⟨none⟩⟩
        [⟨0, (0, 0, 0), 1, false⟩, ⟨3, (1, 2, 0), 4, true⟩] true =
      ⟨[⟨0, (0, 0, 0), 1, false⟩, ⟨3, (1, 2, 0), 4, true⟩], true, []⟩ :=
  service_noop_all_unset _ rfl rfl rfl _ _

/-- C4 counterexample: with `min_time_between_msgs = 0` a message whose
timestamp equals the last-enqueued timestamp (here both 5) fails the gate
`stamp - last > 0` and is discarded, so it is not the case that every
incoming message is enqueued when the bound is zero. -/
theorem insertPointcloud_equal_timestamp_counterexample :
    (insertPointcloud 0 ⟨5, []⟩ 5).pointcloud_queue = [] := by
  norm_num [insertPointcloud]

/-- C4 (amended: with `min_time_between_msgs = 0` a message is enqueued iff
its timestamp strictly exceeds the last-enqueued timestamp): the gate
admits a message iff `stamp - last_msg_time_ptcloud > min_time_between_msgs`
(strictly), in which case it is appended to the queue and the last-enqueued
timestamp advances; otherwise the state is unchanged and the message is
silently discarded (never queued, never retried); and with the bound zero
the gate condition is exactly strict timestamp increase. -/
theorem insertPointcloud_rate_gate :
    ∀ (min_time_between_msgs : ℚ) (s : IngestState) (stamp : Time),
      ((insertPointcloud min_time_between_msgs s stamp).pointcloud_queue =
          s.pointcloud_queue ++ [stamp] ↔
        stamp - s.last_msg_time_ptcloud > min_time_between_msgs) ∧
      (stamp - s.last_msg_time_ptcloud > min_time_between_msgs →
        insertPointcloud min_time_between_msgs s stamp =
          ⟨stamp, s.pointcloud_queue ++ [stamp]⟩) ∧
      (¬stamp - s.last_msg_time_ptcloud > min_time_between_msgs →
        insertPointcloud min_time_between_msgs s stamp = s) ∧
      (stamp - s.last_msg_time_ptcloud > 0 ↔
        s.last_msg_time_ptcloud < stamp) := by
  intro mt s stamp
  by_cases h : stamp - s.last_msg_time_ptcloud > mt
  · exact ⟨by simp [insertPointcloud, h], fun _ => by simp [insertPointcloud, h],
      fun hc => absurd h hc, sub_pos⟩
  · exact ⟨by simp [insertPointcloud, h], fun hc => absurd hc h,
      fun _ => by simp [insertPointcloud, h], sub_pos⟩

/-- C5: when submapping is enabled, `shouldCreateNewSubmap` returns false
on the very first observed pose (zero-timestamp sentinel or NaN-position
sentinel) and initializes the submap reference timestamp and position to
that observation; a submap is never finalized on its first sample. -/
theorem shouldCreateNewSubmap_first_sample
    (cfg : SubmapConfig) (s : ServerState) (ts : Time) (pos : Point3)
    (hen : submappingEnabled cfg = true)
    (hfirst : s.last_published_submap_timestamp = 0 ∨
      s.last_published_submap_position = none) :
    shouldCreateNewSubmap cfg s ts pos =
      (false,
        { s with
          last_published_submap_timestamp := ts,
          last_published_submap_position := some pos }) := by
  unfold shouldCreateNewSubmap
  rw [if_neg (by simp [hen]), if_pos hfirst]

/-- C5 witness: with the time bound set and the constructor's initial state
(zero timestamp, NaN position), the first pose initializes both reference
fields and no submap is finalized. -/
theorem shouldCreateNewSubmap_first_sample_witness :
    shouldCreateNewSubmap ⟨⟨some 1⟩, ⟨none⟩⟩ initialServerState 2 (0, 0, 0) =
      (false,
        { initialServerState with
          last_published_submap_timestamp := 2,
          last_published_submap_position := some (0, 0, 0) }) :=
  shouldCreateNewSubmap_first_sample _ _ _ _ rfl (Or.inl rfl)

/-- C6: `createNewSubmap` increments the submap counter by exactly one and
sets the reference timestamp and position to the finalizing observation; it
hard-resets the map, mesh and window (via `clear()`) iff pointcloud
deintegration is not enabled, and otherwise leaves them untouched. -/
theorem createNewSubmap_spec :
    ∀ (pub : Bool) (dcfg : PointcloudDeintegrationConfig) (s : ServerState)
      (ts : Time) (pos : Point3),
      (createNewSubmap pub dcfg s ts pos).submap_counter =
        s.submap_counter + 1 ∧
      (createNewSubmap pub dcfg s ts pos).last_published_submap_timestamp =
        ts ∧
      (createNewSubmap pub dcfg s ts pos).last_published_submap_position =
        some pos ∧
      (pointcloudDeintegrationEnabled dcfg = false →
        (createNewSubmap pub dcfg s ts pos).tsdf_layer = [] ∧
        (createNewSubmap pub dcfg s ts pos).mesh_layer = [] ∧
        (createNewSubmap pub dcfg s ts pos).pointcloud_deintegration_queue =
          []) ∧
      (pointcloudDeintegrationEnabled dcfg = true →
        (createNewSubmap pub dcfg s ts pos).tsdf_layer = s.tsdf_layer ∧
        (createNewSubmap pub dcfg s ts pos).mesh_layer = s.mesh_layer ∧
        (createNewSubmap pub dcfg s ts pos).pointcloud_deintegration_queue =
          s.pointcloud_deintegration_queue) := by
  intro pub dcfg s ts pos
  by_cases h : pointcloudDeintegrationEnabled dcfg = true <;>
    simp [createNewSubmap, clear_eq, h]

/-- C7: if deintegration is requested (some threshold set) but the chosen
integrator is not the projective one, the constructor check unsets all
three thresholds and logs the error; the mismatch is non-fatal
(the check returns and construction continues). -/
theorem disableDeintegration_on_unsupported_integrator
    (cfg : PointcloudDeintegrationConfig) (ty : TsdfIntegratorType)
    (hen : pointcloudDeintegrationEnabled cfg = true)
    (hty : ty ≠ TsdfIntegratorType.kProjective) :
    disableDeintegrationIfUnsupported cfg ty =
      (⟨⟨none⟩, ⟨none⟩, ⟨none⟩⟩, true) := by
  rw [disableDeintegrationIfUnsupported, if_pos ⟨hen, hty⟩]
  rfl

/-- C7 witness: `max_queue_length` set with the merged integrator gets all
three thresholds unset and the error logged. -/
theorem disableDeintegration_on_unsupported_integrator_witness :
    disableDeintegrationIfUnsupported ⟨⟨some 3⟩, ⟨none⟩, ⟨none⟩⟩
        TsdfIntegratorType.kMerged =
      (⟨⟨none⟩, ⟨none⟩, ⟨none⟩⟩, true) :=
  disableDeintegration_on_unsupported_integrator _ _ rfl (by decide)

/-- C8: `pruneMap` removes exactly those updated blocks in which no voxel's
weight exceeds `kFloatEpsilon` (block indices are unique in a layer, stated
as the Nodup hypothesis); removing such a block clears its mesh cell (when
present) and marks it updated for re-extraction; `pruneMap` resets
`map_needs_pruning_`; the service loop sets the flag whenever it
deintegrates at least one packet and never clears it; and `clear()` either
leaves the flag untouched or — when `publish_tsdf_map_` is on and the flag
is dirty — clears it by actually running `pruneMap` (through the trailing
`publishMap(kResetRemoteMap)` at lines 979-982), so among the modelled
operations the flag is cleared only by a `pruneMap` run. -/
theorem pruneMap_spec (s : ServerState)
    (hnodup : (s.tsdf_layer.map (fun b => b.index)).Nodup) :
    (∀ b : Block, b ∈ (pruneMap s).tsdf_layer ↔
      b ∈ s.tsdf_layer ∧
        (b.updated = true → blockContainsObservedVoxels b = true)) ∧
    (∀ b ∈ s.tsdf_layer, b.updated = true →
      blockContainsObservedVoxels b = false →
      ∀ m ∈ s.mesh_layer, m.index = b.index →
        (⟨m.index, [], true⟩ : MeshBlock) ∈ (pruneMap s).mesh_layer) ∧
    (pruneMap s).map_needs_pruning = false ∧
    (∀ b : Block, blockContainsObservedVoxels b = true ↔
      ∃ v ∈ b.voxels, kFloatEpsilon < v.weight) ∧
    (∀ (cfg : PointcloudDeintegrationConfig)
        (q : List PointcloudDeintegrationPacket) (np : Bool),
      (servicePointcloudDeintegrationQueue cfg q np).deintegrated ≠ [] →
        (servicePointcloudDeintegrationQueue cfg q np).map_needs_pruning =
          true) ∧
    (∀ (cfg : PointcloudDeintegrationConfig)
        (q : List PointcloudDeintegrationPacket),
      (servicePointcloudDeintegrationQueue cfg q true).map_needs_pruning =
        true) ∧
    (∀ (publish_tsdf_map : Bool) (s' : ServerState),
      (clear publish_tsdf_map s').map_needs_pruning =
        (!publish_tsdf_map && s'.map_needs_pruning)) ∧
    (∀ (publish_tsdf_map : Bool) (s' : ServerState),
      publish_tsdf_map = true → s'.map_needs_pruning = true →
      clear publish_tsdf_map s' =
        pruneMap
          { s' with
            tsdf_layer := [],
            mesh_layer := [],
            pointcloud_deintegration_queue := [] }) := by
  refine ⟨?_, ?_, rfl, ?_, ?_, ?_, ?_, ?_⟩
  · intro b
    simp only [pruneMap, List.mem_filter, decide_eq_true_eq]
    constructor
    · rintro ⟨hb, hnot⟩
      refine ⟨hb, fun hupd => ?_⟩
      by_contra hobs
      have hobs' : blockContainsObservedVoxels b = false := by
        revert hobs
        cases blockContainsObservedVoxels b <;> simp
      exact hnot (List.mem_map.mpr
        ⟨b, List.mem_filter.mpr ⟨hb, by simp [hupd, hobs']⟩, rfl⟩)
    · rintro ⟨hb, himp⟩
      refine ⟨hb, fun hmem => ?_⟩
      obtain ⟨b', hb'f, hidx⟩ := List.mem_map.mp hmem
      obtain ⟨hb'mem, hP⟩ := List.mem_filter.mp hb'f
      have hbb : b' = b := List.inj_on_of_nodup_map hnodup hb'mem hb hidx
      subst hbb
      rw [Bool.and_eq_true] at hP
      obtain ⟨h1, h2⟩ := hP
      rw [himp h1] at h2
      simp at h2
  · intro b hb hupd hobs m hm hidx
    have hmem : m.index ∈
        (s.tsdf_layer.filter
            (fun b => b.updated && !blockContainsObservedVoxels b)).map
          (fun b => b.index) :=
      List.mem_map.mpr
        ⟨b, List.mem_filter.mpr ⟨hb, by simp [hupd, hobs]⟩, hidx.symm⟩
    simp only [pruneMap]
    refine List.mem_map.mpr ⟨m, hm, ?_⟩
    rw [if_pos hmem]
  · intro b
    simp [blockContainsObservedVoxels, List.any_eq_true]
  · intro cfg q np hne
    obtain ⟨k, _, heq, _, _⟩ := serviceQueue_take_drop cfg q np
    rw [heq] at hne ⊢
    have hkpos : 0 < k := by
      by_contra h0
      have hk0 : k = 0 := Nat.le_zero.mp (Nat.not_lt.mp h0)
      subst hk0
      simp at hne
    simp [hkpos]
  · intro cfg q
    obtain ⟨k, _, heq, _, _⟩ := serviceQueue_take_drop cfg q true
    rw [heq]
    simp
  · intro publish_tsdf_map s'
    rw [clear_eq]
  · intro publish_tsdf_map s' hp hf
    subst hp
    simp only [clear, publishMap]
    rw [if_pos trivial, if_pos hf]

/-- C8 witness: a one-block layer whose only (updated) block is fully
deintegrated; after pruning the dirty flag is clear. -/
theorem pruneMap_spec_witness :
    (pruneMap ⟨[⟨(0, 0, 0), [⟨1, 0⟩], true⟩], [⟨(0, 0, 0), [(1, 1, 1)], false⟩],
        [], 0, 0, none, true⟩).map_needs_pruning = false :=
  (pruneMap_spec _ (by decide)).2.2.1

/-- C9: with accumulation of ICP corrections disabled, the correction
offset is reset to identity at the start of every refinement call, so the
call's outcome does not depend on the previous correction and the effective
prior handed to the refiner is the raw prior pose; afterwards the
correction is recomputed as `refinedPose * priorPose⁻¹` (with the
roll/pitch components of its log zeroed when the refiner does not solve
roll and pitch, lines 343-350). -/
theorem processPointCloudIcp_no_accumulation {T : Type} [Group T]
    (refiningRollPitch : Bool) (zeroRollPitchCorrection runICP : T → T)
    (s : IcpState T) (T_G_C : T) :
    processPointCloudIcp false refiningRollPitch zeroRollPitchCorrection
        runICP s T_G_C =
      processPointCloudIcp false refiningRollPitch zeroRollPitchCorrection
        runICP ⟨1⟩ T_G_C ∧
    (processPointCloudIcp false refiningRollPitch zeroRollPitchCorrection
        runICP s T_G_C).2 = runICP T_G_C ∧
    (processPointCloudIcp false refiningRollPitch zeroRollPitchCorrection
        runICP s T_G_C).1.icp_corrected_transform =
      (if refiningRollPitch then runICP T_G_C * T_G_C⁻¹
       else zeroRollPitchCorrection (runICP T_G_C * T_G_C⁻¹)) := by
  unfold processPointCloudIcp
  simp [one_mul]

/-- C10 counterexample: the needs-pruning flag does not always survive the
map wipe: with `publish_tsdf_map_` set and the flag dirty, `clear()` (as
run by the clear-map command) ends in `publishMap(kResetRemoteMap)`, which
runs `pruneMap()` and resets the flag — here a dirty state comes out of the
wipe with the flag cleared. -/
theorem clear_dirty_publish_counterexample :
    (⟨[], [], [], 0, 0, none, true⟩ : ServerState).map_needs_pruning = true ∧
    (clear true ⟨[], [], [], 0, 0, none, true⟩).map_needs_pruning = false :=
  ⟨rfl, rfl⟩

/-- C10 (amended: the needs-pruning flag survives the wipe unless
`publish_tsdf_map_` is set and the flag is dirty, in which case the
trailing `publishMap(kResetRemoteMap)` prunes and clears it): `clear()`
(as invoked by the clear-map service callback) empties the TSDF layer, the
mesh layer and the deintegration window, leaves the submap counter and the
submap reference timestamp and position unchanged, and maps the
needs-pruning flag to `!publish_tsdf_map && flag`; the callback reports
success. -/
theorem clear_frame_effect :
    ∀ (publish_tsdf_map : Bool) (s : ServerState),
      (clear publish_tsdf_map s).tsdf_layer = [] ∧
      (clear publish_tsdf_map s).mesh_layer = [] ∧
      (clear publish_tsdf_map s).pointcloud_deintegration_queue = [] ∧
      (clear publish_tsdf_map s).submap_counter = s.submap_counter ∧
      (clear publish_tsdf_map s).last_published_submap_timestamp =
        s.last_published_submap_timestamp ∧
      (clear publish_tsdf_map s).last_published_submap_position =
        s.last_published_submap_position ∧
      (clear publish_tsdf_map s).map_needs_pruning =
        (!publish_tsdf_map && s.map_needs_pruning) ∧
      clearMapCallback publish_tsdf_map s =
        (clear publish_tsdf_map s, true) := by
  intro publish_tsdf_map s
  refine ⟨?_, ?_, ?_, ?_, ?_, ?_, ?_, rfl⟩ <;> rw [clear_eq]

end Voxblox
